import Mathlib

/-!
Shallow embedding of the SkillCapital CrewAI chatbot repository
(`chatbot.py`, `skillcapital_chatbot_api.py`, `app.py`, `bot.py`).

Text is modelled as `List Char`; Python string primitives (`lower`,
`strip`, `replace`, `in`, `title`, `len`) are embedded as executable
functions on character lists.  Network and filesystem effects
(website fetch, curriculum file read, LLM crew run) are modelled as
oracle values passed into the handlers, so that independence from an
oracle expresses that the corresponding component is never invoked.
-/

namespace CrewAI

/-- Text, as Python strings restricted to sequences of characters. -/
abbrev Str := List Char

/-- Character list of a literal. -/
def str (s : String) : Str := s.data

/-- Python `str.lower()` (ASCII case mapping, as in `Char.toLower`). -/
def lowerChars (s : Str) : Str := s.map Char.toLower

/-- Python `str.strip()`: drop whitespace from both ends. -/
def stripChars (s : Str) : Str :=
  (((s.dropWhile Char.isWhitespace).reverse).dropWhile Char.isWhitespace).reverse

/-- `isPre pat s` holds when `pat` is a leading segment of `s`. -/
def isPre : Str → Str → Bool
  | [], _ => true
  | _ :: _, [] => false
  | p :: ps, c :: cs => p == c && isPre ps cs

/-- Python substring test `pat in s`. -/
def isSubList (pat : Str) : Str → Bool
  | [] => pat.isEmpty
  | c :: rest => isPre pat (c :: rest) || isSubList pat rest

/-- Number of start positions at which `pat` occurs in `s`
(used to state the side condition of the idempotence claim). -/
def countOcc (pat : Str) : Str → Nat
  | [] => 0
  | c :: rest => (if isPre pat (c :: rest) then 1 else 0) + countOcc pat rest

/-- Worker for `replaceAll`.  The fuel starts at the length of the
text; every step consumes at least one character, so the `0` case is
never reached with a non-empty remainder. -/
def replaceGo (pat repl : Str) : Nat → Str → Str
  | _, [] => []
  | 0, s => s
  | fuel + 1, c :: rest =>
      if pat ≠ [] ∧ isPre pat (c :: rest) = true then
        repl ++ replaceGo pat repl fuel ((c :: rest).drop pat.length)
      else
        c :: replaceGo pat repl fuel rest

/-- Python `s.replace(pat, repl)`: replace every non-overlapping
occurrence, scanning left to right, without rescanning replacements. -/
def replaceAll (pat repl s : Str) : Str := replaceGo pat repl s.length s

/-- Python `"sep".join(parts)`. -/
def intercal (sep : Str) : List Str → Str
  | [] => []
  | [x] => x
  | x :: y :: rest => x ++ sep ++ intercal sep (y :: rest)

/-- Worker for `titleChars`; the flag records whether the previous
character was alphabetic. -/
def titleAux : Bool → Str → Str
  | _, [] => []
  | prevAlpha, c :: rest =>
      (if c.isAlpha then (if prevAlpha then c.toLower else c.toUpper) else c)
        :: titleAux c.isAlpha rest

/-- Python `str.title()` (ASCII): uppercase the first letter of each
alphabetic run, lowercase the rest. -/
def titleChars (s : Str) : Str := titleAux false s

/-- `chatbot.py` lines 190-208: the spelling/synonym table, in source
order (Python dicts preserve insertion order). -/
def corrections : List (Str × Str) :=
  [ (str "curriculam", str "curriculum"),
    (str "trainning", str "training"),
    (str "enrolment", str "enrollment"),
    (str "skill capital", str "skillcapital"),
    (str "skill-capital", str "skillcapital"),
    (str "skill_capital", str "skillcapital"),
    (str "how much", str "price"),
    (str "costs", str "cost"),
    (str "fees", str "fee"),
    (str "hours", str "duration"),
    (str "time", str "duration"),
    (str "how long", str "duration"),
    (str "sign up", str "enroll"),
    (str "join", str "enroll"),
    (str "i want enroll", str "enroll"),
    (str "i want to enroll", str "enroll"),
    (str "how to enroll", str "enroll") ]

/-- `chatbot.py` `normalize_input`: lowercase, then apply each table
substitution in order. -/
def normalize_input (user_input : Str) : Str :=
  corrections.foldl (fun acc p => replaceAll p.1 p.2 acc) (lowerChars user_input)

/-- `any(word in s for word in ws)`. -/
def anyKey (ws : List Str) (s : Str) : Bool := ws.any fun w => isSubList w s

/-- ASCII apostrophe, used inside canned response strings. -/
def apos : Char := Char.ofNat 39

/- ## Curriculum data model (`course_curriculum.json` shape) -/

/-- One entry of a course curriculum: `{module, duration, topics}`. -/
structure CourseModule where
  module : Str
  duration : Str
  topics : List Str
deriving DecidableEq

/-- One course: `{name, curriculum: [...]}`. -/
structure Course where
  name : Str
  curriculum : List CourseModule
deriving DecidableEq

/-- The parsed curriculum document.  `courses = none` models a JSON
object without a `courses` key (such as the empty object `{}`, which
is also falsy in Python); the association list keeps the insertion
order of the JSON object. -/
structure CurriculumFile where
  courses : Option (List (Str × Course))
deriving DecidableEq

/-- Python `key in d` followed by `d[key]` on the courses dict. -/
def lookupCourse : List (Str × Course) → Str → Option Course
  | [], _ => none
  | (k, c) :: rest, key => if k = key then some c else lookupCourse rest key

/- ## Curriculum loaders (both variants) -/

/-- `skillcapital_chatbot_api.py` `load_course_curriculum` (lines
51-60): return the parsed file, or the empty dict `{}` when opening
or parsing raises.  The read/parse outcome is the `Except` input. -/
def load_course_curriculum_api : Except Str CurriculumFile → CurriculumFile
  | .ok d => d
  | .error _ => { courses := none }

/-- `chatbot.py` `load_course_curriculum` (lines 171-184): return the
parsed file, or Python `None` when opening or parsing raises. -/
def load_course_curriculum_chatbot : Except Str CurriculumFile → Option CurriculumFile
  | .ok d => some d
  | .error _ => none

/- ## Keyword sets (`chatbot.py`) -/

/-- `chat` line 425: exit words. -/
def exit_keywords : List Str := [str "exit", str "quit", str "bye", str "goodbye"]

/-- `detect_greeting` lines 361-365: greeting words. -/
def greetings : List Str :=
  [str "hi", str "hello", str "hey", str "good morning", str "good afternoon",
   str "good evening", str "morning", str "afternoon", str "evening",
   str "hii", str "helloo", str "heyy", str "hiii", str "hellooo"]

/-- `get_smart_answer` lines 228-237: domain keywords (the source
lists `curriculam` twice; the duplicate is kept). -/
def skillcapital_keywords : List Str :=
  [str "skillcapital", str "skill capital", str "skill-capital", str "skill_capital",
   str "course", str "courses", str "curriculum", str "curriculam", str "curriculam",
   str "learn", str "learning", str "training", str "trainning",
   str "enroll", str "enrollment", str "enrolment", str "register", str "registration",
   str "sign up", str "join",
   str "price", str "pricing", str "cost", str "costs", str "fee", str "fees",
   str "duration", str "time", str "hours", str "how long",
   str "python", str "cloud", str "devops", str "ai", str "machine learning",
   str "programming", str "coding", str "development"]

/-- `get_smart_answer` line 242: curriculum-detail words. -/
def curriculum_words : List Str :=
  [str "content", str "curriculum", str "curriculam", str "modules",
   str "syllabus", str "topics"]

/-- `get_smart_answer` line 304: price words. -/
def price_words : List Str := [str "price", str "cost", str "fee", str "how much"]

/-- `get_smart_answer` line 306: duration words. -/
def duration_words : List Str := [str "duration", str "time", str "hours", str "how long"]

/-- `get_smart_answer` line 308: enrollment words. -/
def enroll_words : List Str := [str "enroll", str "join", str "register", str "sign up"]

/-- `get_smart_answer` line 312: course-listing words. -/
def course_words : List Str := [str "course", str "learn", str "training"]

/- ## Response assembly (`chatbot.py` `get_smart_answer`) -/

/-- Lines 248-251 / 260-263 / ...: the per-module lines, a header line
with the duration followed by one bullet line per topic. -/
def moduleLines (m : CourseModule) : List Str :=
  (str "📚 " ++ m.module ++ str " (" ++ m.duration ++ str ")")
    :: m.topics.map (fun t => str "  • " ++ t)

/-- The `modules_info` list accumulated over a course. -/
def courseModulesInfo (c : Course) : List Str :=
  (c.curriculum.map moduleLines).flatten

/-- One `curriculum-detail` branch (e.g. lines 244-254): when the
curriculum file is present, has a `courses` key, and contains the
requested course key, render its modules under the given header;
otherwise fall back to the fixed one-line description. -/
def detailAnswer (header fallbackDesc : Str) (cd : Option CurriculumFile)
    (key : Str) : Str :=
  match cd with
  | some file =>
      match file.courses with
      | some courses =>
          match lookupCourse courses key with
          | some course =>
              header ++ str "\n" ++ intercal (str "\n") (courseModulesInfo course)
          | none => fallbackDesc
      | none => fallbackDesc
  | none => fallbackDesc

/-- Lines 293-301: general curriculum overview over all courses. -/
def overviewAnswer (cd : Option CurriculumFile) : Str :=
  match cd with
  | some file =>
      match file.courses with
      | some courses =>
          str "Available Courses and Modules:\n" ++
            intercal (str "\n")
              (courses.map fun p =>
                str "📚 " ++ p.2.name ++ str ": " ++
                  intercal (str ", ") (p.2.curriculum.map fun m => m.module))
      | none => str "Python: 6 modules, Cloud: 5 modules, DevOps: 6 modules, AI/ML: 5 modules"
  | none => str "Python: 6 modules, Cloud: 5 modules, DevOps: 6 modules, AI/ML: 5 modules"

/-- Lines 242-301: dispatch of the curriculum-detail branch over the
specific course named in the message. -/
def detailDispatch (cd : Option CurriculumFile) (low : Str) : Str :=
  if isSubList (str "python") low then
    detailAnswer (str "Python Programming Course Modules:")
      (str "Python Programming: Python Fundamentals, Data Structures, OOP, File Handling, Advanced Python, Practical Projects")
      cd (str "python")
  else if isSubList (str "cloud") low then
    detailAnswer (str "Cloud Computing Course Modules:")
      (str "Cloud Computing: Cloud Fundamentals, AWS Services, Azure Services, GCP, DevOps in Cloud")
      cd (str "cloud_computing")
  else if isSubList (str "devops") low then
    detailAnswer (str "DevOps Engineering Course Modules:")
      (str "DevOps Engineering: DevOps Fundamentals, CI/CD, Containerization, Orchestration, Infrastructure as Code, Monitoring")
      cd (str "devops")
  else if isSubList (str "ai") low || isSubList (str "machine learning") low then
    detailAnswer (str "AI and Machine Learning Course Modules:")
      (str "AI and Machine Learning: AI Fundamentals, Supervised Learning, Unsupervised Learning, Deep Learning, AI Tools")
      cd (str "ai_ml")
  else overviewAnswer cd

/-- Line 318: the out-of-domain response. -/
def offTopicResponse : Str :=
  str "I" ++ [apos] ++
    str "m here to help with SkillCapital information! For general questions, I can assist you. What would you like to know about our courses, pricing, or enrollment process?"

/-- `chatbot.py` `get_smart_answer` (lines 217-322), parameterized by
the loaded curriculum.  The website fetch of line 224 is performed but
its result is never used by any branch, so it does not appear. -/
def get_smart_answer (cd : Option CurriculumFile) (user_input : Str) : Str :=
  if anyKey skillcapital_keywords (normalize_input user_input) then
    if anyKey curriculum_words (normalize_input user_input) then
      detailDispatch cd (normalize_input user_input)
    else if anyKey price_words (normalize_input user_input) then
      str "999/-"
    else if anyKey duration_words (normalize_input user_input) then
      str "30 hours"
    else if anyKey enroll_words (normalize_input user_input) then
      str "https://www.skillcapital.ai"
    else if isSubList (str "python") (normalize_input user_input) then
      str "999/-"
    else if anyKey course_words (normalize_input user_input) then
      str "Python, Cloud, DevOps"
    else
      str "skillcapital.ai"
  else offTopicResponse

/-- `chatbot.py` `detect_greeting` (lines 359-368): substring
membership of any greeting word in the lowercased, stripped input. -/
def detect_greeting (user_input : Str) : Bool :=
  anyKey greetings (stripChars (lowerChars user_input))

/- ## Intent, as the branch reached by the `/api/chat` endpoint -/

/-- The branch of `chat` + `get_smart_answer` that produces the
response: the spec intents plus the two extra fallback branches the
code tests after the four sub-intent sets. -/
inductive Intent where
  | exit
  | greeting
  | offTopic
  | curriculumDetail
  | price
  | duration
  | enrollment
  | pythonFallback
  | courseList
  | generic
deriving DecidableEq

/-- The sub-intent branch structure of `get_smart_answer` on the
normalized message (lines 238-318). -/
def classifySmart (m : Str) : Intent :=
  if anyKey skillcapital_keywords (normalize_input m) then
    if anyKey curriculum_words (normalize_input m) then .curriculumDetail
    else if anyKey price_words (normalize_input m) then .price
    else if anyKey duration_words (normalize_input m) then .duration
    else if anyKey enroll_words (normalize_input m) then .enrollment
    else if isSubList (str "python") (normalize_input m) then .pythonFallback
    else if anyKey course_words (normalize_input m) then .courseList
    else .generic
  else .offTopic

/-- The branch the `/api/chat` endpoint takes for a (non-empty)
message: exit check (line 425), greeting check (line 430), then the
`get_smart_answer` branches. -/
def classify (m : Str) : Intent :=
  if anyKey exit_keywords (lowerChars (stripChars m)) then .exit
  else if detect_greeting (stripChars m) then .greeting
  else classifySmart (stripChars m)

/- ## The `/api/chat` endpoint (`chatbot.py` lines 416-441) -/

/-- The process-wide `user_data` record (lines 119-124). -/
structure UserData where
  name : Str
  email : Str
  phone : Str
  greeted : Bool
deriving DecidableEq

/-- `user_data` at process start: all fields empty. -/
def initial_user_data : UserData := ⟨[], [], [], false⟩

/-- An HTTP result: status code and response payload. -/
structure ChatResult where
  status : Nat
  response : Str
deriving DecidableEq

/-- The outside-world effects `chat` can trigger downstream: the
website fetch and the curriculum file read performed inside
`get_smart_answer`. -/
structure ChatOracles where
  website : Str
  file : Except Str CurriculumFile

/-- Line 427 response. -/
def exitResponse (ud : UserData) : Str :=
  str "Thank you " ++ ud.name ++ str "! " ++ [apos] ++ str "Happy Learning" ++ [apos] ++ str "!"

/-- Line 432 response. -/
def greetingResponse (ud : UserData) : Str :=
  str "Hello " ++ ud.name ++ str "! How can I assist you today?"

/-- `chatbot.py` `chat` (lines 416-441): strip the message (missing
message defaults to the empty string), reject empty input with a 400,
then exit check, greeting check, and finally the smart answer. -/
def chat_handler (o : ChatOracles) (ud : UserData) (body : Option Str) : ChatResult :=
  let user_input := stripChars (body.getD [])
  if user_input = [] then
    ⟨400, str "Please enter a valid message."⟩
  else if anyKey exit_keywords (lowerChars user_input) then
    ⟨200, exitResponse ud⟩
  else if detect_greeting user_input then
    ⟨200, greetingResponse ud⟩
  else
    ⟨200, get_smart_answer (load_course_curriculum_chatbot o.file) user_input⟩

/- ## Course matcher (`skillcapital_chatbot_api.py` lines 163-181) -/

/-- Lines 167-173: extract the course list from the curriculum
document (dict values, in insertion order; no `courses` key gives the
empty list). -/
def coursesOf (cd : CurriculumFile) : List Course :=
  match cd.courses with
  | some m => m.map Prod.snd
  | none => []

/-- The Python truthiness test `name and name in q` on the lowercased
course name. -/
def courseMatches (q : Str) (c : Course) : Bool :=
  !(lowerChars c.name).isEmpty && isSubList (lowerChars c.name) q

/-- Lines 175-179: the accumulation loop over the course list. -/
def matchLoop (q : Str) : List Course → List Course
  | [] => []
  | c :: rest =>
      if courseMatches q c then c :: matchLoop q rest else matchLoop q rest

/-- `find_relevant_courses` (lines 163-181): lowercase the question,
collect the courses whose (non-empty) lowercased name occurs in it,
and fall back to the full course list when none matched. -/
def find_relevant_courses (question : Str) (cd : CurriculumFile) : List Course :=
  let matched := matchLoop (lowerChars question) (coursesOf cd)
  if matched = [] then coursesOf cd else matched

/-- Modelled from the claim wording of C4 (not from the source), for
comparison with `find_relevant_courses`: exactly the courses whose
lower-cased display name occurs as a substring of the message, the
full course list when that set is empty. -/
def matchCourses_claim (question : Str) (cd : CurriculumFile) : List Course :=
  let matched :=
    (coursesOf cd).filter fun c => isSubList (lowerChars c.name) (lowerChars question)
  if matched = [] then coursesOf cd else matched

/-- The amended matcher contract: as the claim, but only courses with
a non-empty display name can match. -/
def matchCourses_amended (question : Str) (cd : CurriculumFile) : List Course :=
  let matched := (coursesOf cd).filter (courseMatches (lowerChars question))
  if matched = [] then coursesOf cd else matched

/- ## The `/smart-chatbot` endpoint (`skillcapital_chatbot_api.py` 221-234) -/

/-- The downstream effects of `/smart-chatbot`: website fetch,
curriculum file read, and the CrewAI pipeline run (a function of the
user input, the website context and the matched courses). -/
structure ApiOracles where
  website : Str
  file : Except Str CurriculumFile
  crew : Str → Str → List Course → Str

/-- Result of `/smart-chatbot`: a 400 error or a 200 payload. -/
inductive ApiResult where
  | badRequest (err : Str)
  | ok (payload : Str)
deriving DecidableEq

/-- `smart_chatbot` (lines 221-234): a missing or empty message is
rejected with a 400 before any downstream call; otherwise fetch the
website, load the curriculum, match courses and run the crew. -/
def smart_chatbot (o : ApiOracles) (body : Option Str) : ApiResult :=
  let user_input := body.getD []
  if user_input = [] then .badRequest (str "Message is required")
  else
    let curriculum_data := load_course_curriculum_api o.file
    let matched := find_relevant_courses user_input curriculum_data
    .ok (o.crew user_input o.website matched)

/- ## The `/chat` endpoints of `app.py` / `bot.py` (identical shape) -/

/-- `app.py` lines 105-120 and `bot.py` lines 104-115: strip the
message, 400 when empty, otherwise run the two-agent pipeline. -/
def crew_chat_handler (pipeline : Str → Str) (body : Option Str) : ChatResult :=
  let message := stripChars (body.getD [])
  if message = [] then ⟨400, str "Message is required"⟩
  else ⟨200, pipeline message⟩

/- ## Profile collection (`chatbot.py` `collect_user_info`, 325-356) -/

/-- Line 332-337: a name input is accepted when non-empty after
stripping; the stored value is title-cased. -/
def validate_name (raw : Str) : Option Str :=
  if stripChars raw ≠ [] then some (titleChars (stripChars raw)) else none

/-- Lines 340-345: an email input is accepted when non-empty and
containing an at sign, after stripping. -/
def validate_email (raw : Str) : Option Str :=
  if stripChars raw ≠ [] ∧ isSubList (str "@") (stripChars raw) = true then
    some (stripChars raw)
  else none

/-- Lines 348-353: a phone input is accepted when non-empty and at
least 10 characters long, after stripping. -/
def validate_phone (raw : Str) : Option Str :=
  if stripChars raw ≠ [] ∧ 10 ≤ (stripChars raw).length then
    some (stripChars raw)
  else none

/-- One `while` iteration chain: consume prompted inputs until one
validates; `none` models the loop blocking forever on an exhausted
input stream. -/
def findInput (validate : Str → Option Str) : List Str → Option (Str × List Str)
  | [] => none
  | i :: rest =>
      match validate i with
      | some v => some (v, rest)
      | none => findInput validate rest

/-- One `while not user_data[field]` loop: a field that is already
filled is returned as is, consuming no input. -/
def fieldLoop (validate : Str → Option Str) (cur : Str) (inputs : List Str) :
    Option (Str × List Str) :=
  if cur ≠ [] then some (cur, inputs) else findInput validate inputs

/-- `collect_user_info` (lines 325-356): the three field loops run
in sequence (name, then email, then phone) over one input stream;
the result is the updated record and the unconsumed inputs. -/
def collect_user_info (ud : UserData) (inputs : List Str) :
    Option (UserData × List Str) :=
  match fieldLoop validate_name ud.name inputs with
  | none => none
  | some (n, r1) =>
      match fieldLoop validate_email ud.email r1 with
      | none => none
      | some (e, r2) =>
          match fieldLoop validate_phone ud.phone r2 with
          | none => none
          | some (p, r3) => some (⟨n, e, p, ud.greeted⟩, r3)

/- ## Fixtures -/

/-- The reference curriculum fixture of the round-trip property: one
course `Python` with one module `Python Fundamentals` (5 hours,
topics Variables and Loops). -/
def fixtureCurriculum : CurriculumFile :=
  ⟨some [(str "python",
    ⟨str "Python",
      [⟨str "Python Fundamentals", str "5 hours", [str "Variables", str "Loops"]⟩]⟩)]⟩

/-- A two-course curriculum whose first course has an empty display
name (used for the matcher edge case). -/
def emptyNameCurriculum : CurriculumFile :=
  ⟨some [(str "a", ⟨[], []⟩), (str "b", ⟨str "zzz", []⟩)]⟩

/-- A concrete oracle assignment: blank website, failing file read. -/
def sampleChatOracles : ChatOracles := ⟨[], Except.error []⟩

/-- A second, different oracle assignment. -/
def sampleChatOracles2 : ChatOracles := ⟨str "site", Except.ok fixtureCurriculum⟩

/- # Theorems -/

/-- C2: the four reference inputs classify as greeting, exit,
off-topic and price respectively. -/
theorem classify_reference_inputs :
    classify (str "hi") = Intent.greeting ∧
    classify (str "bye") = Intent.exit ∧
    classify (str "what is the weather") = Intent.offTopic ∧
    classify (str "how much is the python course") = Intent.price := by
  decide

/-- C5: on the fixture curriculum, a curriculum-detail request for
python yields the module line `Python Fundamentals (5 hours)` followed
by the indented bullet lines `Variables` and `Loops`, in stored order
(the rendered module line carries the source code book-emoji marker in
front of the module name). -/
theorem curriculum_detail_roundtrip :
    get_smart_answer (some fixtureCurriculum) (str "python curriculum") =
      str "Python Programming Course Modules:\n📚 Python Fundamentals (5 hours)\n  • Variables\n  • Loops" ∧
    chat_handler ⟨[], Except.ok fixtureCurriculum⟩ initial_user_data
        (some (str "python curriculum")) =
      ⟨200, str "Python Programming Course Modules:\n📚 Python Fundamentals (5 hours)\n  • Variables\n  • Loops"⟩ ∧
    ∃ pre post : Str,
      get_smart_answer (some fixtureCurriculum) (str "python curriculum") =
        pre ++ str "Python Fundamentals (5 hours)\n  • Variables\n  • Loops" ++ post := by
  refine ⟨by decide, by decide, str "Python Programming Course Modules:\n📚 ", [], by decide⟩

/-- C6 counterexample: the input `costss` contains exactly one
occurrence of exactly one synonym-table variant (`costs`), yet one
normalization pass gives `costs` and a second pass gives `cost`, so
normalization is not idempotent after one pass on it (the tail
character merges with the replacement into a fresh variant). -/
theorem normalize_idempotence_counterexample :
    ((corrections.map Prod.fst).all
      fun v => countOcc v (str "costss") == (if v = str "costs" then 1 else 0)) = true ∧
    normalize_input (str "costss") = str "costs" ∧
    normalize_input (normalize_input (str "costss")) = str "cost" ∧
    normalize_input (normalize_input (str "costss")) ≠ normalize_input (str "costss") := by
  decide

/-- C6 (amended): for every synonym-table variant taken as the entire
input, normalization is idempotent after one pass. -/
theorem normalize_idempotent_on_variants :
    ∀ v ∈ corrections.map Prod.fst,
      normalize_input (normalize_input v) = normalize_input v := by
  decide

/-- C6 (amended), witness: idempotence at the variant `costs`. -/
theorem normalize_idempotent_on_variants_witness :
    normalize_input (normalize_input (str "costs")) = normalize_input (str "costs") :=
  normalize_idempotent_on_variants (str "costs") (by decide)

/-- C7 counterexample: on a failed file read the `chatbot.py` loader
returns the `None` sentinel, which is not an empty mapping (under
either representation of an empty curriculum document), while the API
loader does return the empty mapping. -/
theorem curriculum_loader_counterexample :
    load_course_curriculum_chatbot (Except.error (str "No such file or directory")) = none ∧
    (none : Option CurriculumFile) ≠ some { courses := none } ∧
    (none : Option CurriculumFile) ≠ some { courses := some [] } ∧
    load_course_curriculum_api (Except.error (str "No such file or directory")) =
      { courses := none } := by
  decide

/-- C7 (amended): neither loader propagates the error; on any failure
the API variant yields the empty document and the `chatbot.py` variant
yields the `None` sentinel. -/
theorem curriculum_loader_failure (e : Str) :
    load_course_curriculum_api (Except.error e) = { courses := none } ∧
    load_course_curriculum_chatbot (Except.error e) = none :=
  ⟨rfl, rfl⟩

/-- C8: a missing or empty message is rejected with a 400 by every
chat endpoint, and the result does not depend on any downstream
oracle (website fetch, curriculum read, crew/LLM run), i.e. no
downstream component is invoked. -/
theorem empty_message_rejected (o o' : ChatOracles) (ao ao' : ApiOracles)
    (p p' : Str → Str) (ud ud' : UserData) (body : Option Str)
    (h : body = none ∨ body = some []) :
    chat_handler o ud body = ⟨400, str "Please enter a valid message."⟩ ∧
    chat_handler o ud body = chat_handler o' ud' body ∧
    smart_chatbot ao body = .badRequest (str "Message is required") ∧
    smart_chatbot ao body = smart_chatbot ao' body ∧
    crew_chat_handler p body = ⟨400, str "Message is required"⟩ ∧
    crew_chat_handler p body = crew_chat_handler p' body := by
  rcases h with h | h <;> subst h <;> exact ⟨rfl, rfl, rfl, rfl, rfl, rfl⟩

/-- C8 witness: the empty message, concrete oracles. -/
theorem empty_message_rejected_witness :
    chat_handler sampleChatOracles initial_user_data (some []) =
      ⟨400, str "Please enter a valid message."⟩ ∧
    smart_chatbot ⟨[], Except.error [], fun _ _ _ => []⟩ (some []) =
      .badRequest (str "Message is required") := by
  have h := empty_message_rejected sampleChatOracles sampleChatOracles2
    ⟨[], Except.error [], fun _ _ _ => []⟩ ⟨str "w", Except.ok fixtureCurriculum, fun u _ _ => u⟩
    (fun _ => []) (fun m => m) initial_user_data ⟨str "A", str "a@b", str "0123456789", true⟩
    (some []) (Or.inr rfl)
  exact ⟨h.1, h.2.2.1⟩

/-- C1 counterexample: `tell me about python` matches a domain keyword
and none of the four sub-intent sets, yet the response is the price
string 999 rather than a generic domain acknowledgment, while the
domain message `skillcapital` (also sub-intent-free) gets the generic
`skillcapital.ai`; so a domain message with no sub-intent match does
not always get a generic domain acknowledgment. -/
theorem classify_generic_fallback_counterexample :
    anyKey skillcapital_keywords (normalize_input (str "tell me about python")) = true ∧
    anyKey curriculum_words (normalize_input (str "tell me about python")) = false ∧
    anyKey price_words (normalize_input (str "tell me about python")) = false ∧
    anyKey duration_words (normalize_input (str "tell me about python")) = false ∧
    anyKey enroll_words (normalize_input (str "tell me about python")) = false ∧
    classify (str "tell me about python") = Intent.pythonFallback ∧
    get_smart_answer none (str "tell me about python") = str "999/-" ∧
    classify (str "skillcapital") = Intent.generic ∧
    get_smart_answer none (str "skillcapital") = str "skillcapital.ai" ∧
    get_smart_answer none (str "tell me about python") ≠
      get_smart_answer none (str "skillcapital") := by
  decide

/-- C1 (amended): the precedence order on every message is exit,
greeting, domain membership (off-topic when no domain keyword
matches, with no sub-intent test), then the sub-intent sets
curriculum-detail, price, duration, enrollment in that fixed order
with first match winning; when a domain keyword matched but no
sub-intent set did, two further fallbacks run before the generic
acknowledgment: a message containing `python` gets the price string
the 999 literal, then a message containing a course/learn/training keyword
gets the fixed course list, and only otherwise is the generic
acknowledgment `skillcapital.ai` returned. -/
theorem classify_precedence (m : Str) (cd : Option CurriculumFile) :
    (anyKey exit_keywords (lowerChars (stripChars m)) = true →
      classify m = Intent.exit) ∧
    (anyKey exit_keywords (lowerChars (stripChars m)) = false →
      detect_greeting (stripChars m) = true →
      classify m = Intent.greeting) ∧
    (anyKey exit_keywords (lowerChars (stripChars m)) = false →
      detect_greeting (stripChars m) = false →
      anyKey skillcapital_keywords (normalize_input (stripChars m)) = false →
      classify m = Intent.offTopic ∧
        get_smart_answer cd (stripChars m) = offTopicResponse) ∧
    (anyKey exit_keywords (lowerChars (stripChars m)) = false →
      detect_greeting (stripChars m) = false →
      anyKey skillcapital_keywords (normalize_input (stripChars m)) = true →
      anyKey curriculum_words (normalize_input (stripChars m)) = true →
      classify m = Intent.curriculumDetail ∧
        get_smart_answer cd (stripChars m) =
          detailDispatch cd (normalize_input (stripChars m))) ∧
    (anyKey exit_keywords (lowerChars (stripChars m)) = false →
      detect_greeting (stripChars m) = false →
      anyKey skillcapital_keywords (normalize_input (stripChars m)) = true →
      anyKey curriculum_words (normalize_input (stripChars m)) = false →
      anyKey price_words (normalize_input (stripChars m)) = true →
      classify m = Intent.price ∧ get_smart_answer cd (stripChars m) = str "999/-") ∧
    (anyKey exit_keywords (lowerChars (stripChars m)) = false →
      detect_greeting (stripChars m) = false →
      anyKey skillcapital_keywords (normalize_input (stripChars m)) = true →
      anyKey curriculum_words (normalize_input (stripChars m)) = false →
      anyKey price_words (normalize_input (stripChars m)) = false →
      anyKey duration_words (normalize_input (stripChars m)) = true →
      classify m = Intent.duration ∧
        get_smart_answer cd (stripChars m) = str "30 hours") ∧
    (anyKey exit_keywords (lowerChars (stripChars m)) = false →
      detect_greeting (stripChars m) = false →
      anyKey skillcapital_keywords (normalize_input (stripChars m)) = true →
      anyKey curriculum_words (normalize_input (stripChars m)) = false →
      anyKey price_words (normalize_input (stripChars m)) = false →
      anyKey duration_words (normalize_input (stripChars m)) = false →
      anyKey enroll_words (normalize_input (stripChars m)) = true →
      classify m = Intent.enrollment ∧
        get_smart_answer cd (stripChars m) = str "https://www.skillcapital.ai") ∧
    (anyKey exit_keywords (lowerChars (stripChars m)) = false →
      detect_greeting (stripChars m) = false →
      anyKey skillcapital_keywords (normalize_input (stripChars m)) = true →
      anyKey curriculum_words (normalize_input (stripChars m)) = false →
      anyKey price_words (normalize_input (stripChars m)) = false →
      anyKey duration_words (normalize_input (stripChars m)) = false →
      anyKey enroll_words (normalize_input (stripChars m)) = false →
      isSubList (str "python") (normalize_input (stripChars m)) = true →
      classify m = Intent.pythonFallback ∧
        get_smart_answer cd (stripChars m) = str "999/-") ∧
    (anyKey exit_keywords (lowerChars (stripChars m)) = false →
      detect_greeting (stripChars m) = false →
      anyKey skillcapital_keywords (normalize_input (stripChars m)) = true →
      anyKey curriculum_words (normalize_input (stripChars m)) = false →
      anyKey price_words (normalize_input (stripChars m)) = false →
      anyKey duration_words (normalize_input (stripChars m)) = false →
      anyKey enroll_words (normalize_input (stripChars m)) = false →
      isSubList (str "python") (normalize_input (stripChars m)) = false →
      anyKey course_words (normalize_input (stripChars m)) = true →
      classify m = Intent.courseList ∧
        get_smart_answer cd (stripChars m) = str "Python, Cloud, DevOps") ∧
    (anyKey exit_keywords (lowerChars (stripChars m)) = false →
      detect_greeting (stripChars m) = false →
      anyKey skillcapital_keywords (normalize_input (stripChars m)) = true →
      anyKey curriculum_words (normalize_input (stripChars m)) = false →
      anyKey price_words (normalize_input (stripChars m)) = false →
      anyKey duration_words (normalize_input (stripChars m)) = false →
      anyKey enroll_words (normalize_input (stripChars m)) = false →
      isSubList (str "python") (normalize_input (stripChars m)) = false →
      anyKey course_words (normalize_input (stripChars m)) = false →
      classify m = Intent.generic ∧
        get_smart_answer cd (stripChars m) = str "skillcapital.ai") := by
  refine ⟨?_, ?_, ?_, ?_, ?_, ?_, ?_, ?_, ?_, ?_⟩
  · intro h1; simp [classify, h1]
  · intro h1 h2; simp [classify, h1, h2]
  · intro h1 h2 h3
    exact ⟨by simp [classify, classifySmart, h1, h2, h3], by simp [get_smart_answer, h3]⟩
  · intro h1 h2 h3 h4
    exact ⟨by simp [classify, classifySmart, h1, h2, h3, h4],
           by simp [get_smart_answer, h3, h4]⟩
  · intro h1 h2 h3 h4 h5
    exact ⟨by simp [classify, classifySmart, h1, h2, h3, h4, h5],
           by simp [get_smart_answer, h3, h4, h5]⟩
  · intro h1 h2 h3 h4 h5 h6
    exact ⟨by simp [classify, classifySmart, h1, h2, h3, h4, h5, h6],
           by simp [get_smart_answer, h3, h4, h5, h6]⟩
  · intro h1 h2 h3 h4 h5 h6 h7
    exact ⟨by simp [classify, classifySmart, h1, h2, h3, h4, h5, h6, h7],
           by simp [get_smart_answer, h3, h4, h5, h6, h7]⟩
  · intro h1 h2 h3 h4 h5 h6 h7 h8
    exact ⟨by simp [classify, classifySmart, h1, h2, h3, h4, h5, h6, h7, h8],
           by simp [get_smart_answer, h3, h4, h5, h6, h7, h8]⟩
  · intro h1 h2 h3 h4 h5 h6 h7 h8 h9
    exact ⟨by simp [classify, classifySmart, h1, h2, h3, h4, h5, h6, h7, h8, h9],
           by simp [get_smart_answer, h3, h4, h5, h6, h7, h8, h9]⟩
  · intro h1 h2 h3 h4 h5 h6 h7 h8 h9
    exact ⟨by simp [classify, classifySmart, h1, h2, h3, h4, h5, h6, h7, h8, h9],
           by simp [get_smart_answer, h3, h4, h5, h6, h7, h8, h9]⟩

/-- C1 (amended), witness: a message with both a price and a duration
keyword is classified price (first sub-intent match wins). -/
theorem classify_precedence_witness :
    classify (str "price and duration") = Intent.price ∧
    get_smart_answer none (str "price and duration") = str "999/-" :=
  (classify_precedence (str "price and duration") none).2.2.2.2.1
    (by decide) (by decide) (by decide) (by decide) (by decide)

/-- Inversion: a message classified price passed the exit, greeting,
domain and curriculum-detail tests with the shown outcomes and matched
a price keyword. -/
lemma classify_price_cases (m : Str) (h : classify m = Intent.price) :
    anyKey exit_keywords (lowerChars (stripChars m)) = false ∧
    detect_greeting (stripChars m) = false ∧
    anyKey skillcapital_keywords (normalize_input (stripChars m)) = true ∧
    anyKey curriculum_words (normalize_input (stripChars m)) = false ∧
    anyKey price_words (normalize_input (stripChars m)) = true := by
  unfold classify classifySmart at h
  split at h
  · simp at h
  · split at h
    · simp at h
    · split at h
      · split at h
        · simp at h
        · split at h
          · refine ⟨?_, ?_, ?_, ?_, ?_⟩ <;> simp_all
          · split at h
            · simp at h
            · split at h
              · simp at h
              · split at h
                · simp at h
                · split at h <;> simp at h
      · simp at h

/-- Inversion: a message classified duration passed the earlier tests
with the shown outcomes and matched a duration keyword. -/
lemma classify_duration_cases (m : Str) (h : classify m = Intent.duration) :
    anyKey exit_keywords (lowerChars (stripChars m)) = false ∧
    detect_greeting (stripChars m) = false ∧
    anyKey skillcapital_keywords (normalize_input (stripChars m)) = true ∧
    anyKey curriculum_words (normalize_input (stripChars m)) = false ∧
    anyKey price_words (normalize_input (stripChars m)) = false ∧
    anyKey duration_words (normalize_input (stripChars m)) = true := by
  unfold classify classifySmart at h
  split at h
  · simp at h
  · split at h
    · simp at h
    · split at h
      · split at h
        · simp at h
        · split at h
          · simp at h
          · split at h
            · refine ⟨?_, ?_, ?_, ?_, ?_, ?_⟩ <;> simp_all
            · split at h
              · simp at h
              · split at h
                · simp at h
                · split at h <;> simp at h
      · simp at h

/-- A message whose stripped form is empty matches no domain keyword,
so a domain classification forces a non-empty stripped message. -/
lemma stripChars_ne_of_domain (m : Str)
    (h : anyKey skillcapital_keywords (normalize_input (stripChars m)) = true) :
    stripChars m ≠ [] := by
  intro he
  rw [he] at h
  exact absurd h (by decide)

/-- C3: every message classified price gets exactly the literal
price literal, and every message classified duration gets exactly
`30 hours`, for every curriculum oracle and profile state. -/
theorem price_duration_canned (o : ChatOracles) (ud : UserData) (m : Str) :
    (classify m = Intent.price →
      chat_handler o ud (some m) = ⟨200, str "999/-"⟩) ∧
    (classify m = Intent.duration →
      chat_handler o ud (some m) = ⟨200, str "30 hours"⟩) := by
  constructor
  · intro h
    obtain ⟨h1, h2, h3, h4, h5⟩ := classify_price_cases m h
    have hne := stripChars_ne_of_domain m h3
    simp [chat_handler, get_smart_answer, hne, h1, h2, h3, h4, h5]
  · intro h
    obtain ⟨h1, h2, h3, h4, h5, h6⟩ := classify_duration_cases m h
    have hne := stripChars_ne_of_domain m h3
    simp [chat_handler, get_smart_answer, hne, h1, h2, h3, h4, h5, h6]

/-- C3 witness: a concrete price message and a concrete duration
message through the endpoint. -/
theorem price_duration_canned_witness :
    chat_handler sampleChatOracles initial_user_data
        (some (str "how much is the python course")) = ⟨200, str "999/-"⟩ ∧
    chat_handler sampleChatOracles initial_user_data
        (some (str "how long is the course")) = ⟨200, str "30 hours"⟩ :=
  ⟨(price_duration_canned sampleChatOracles initial_user_data _).1 (by decide),
   (price_duration_canned sampleChatOracles initial_user_data _).2 (by decide)⟩

/-- The accumulation loop of the matcher is the filter by the Python
truthiness test `name and name in q`. -/
lemma matchLoop_eq_filter (q : Str) (cs : List Course) :
    matchLoop q cs = cs.filter (courseMatches q) := by
  induction cs with
  | nil => rfl
  | cons c rest ih =>
      by_cases hc : courseMatches q c = true <;>
        simp [matchLoop, List.filter_cons, hc, ih]

/-- C4 counterexample: in a curriculum whose first course has an empty
display name, the empty name does occur (as a substring) in the
message `x`, so the claimed contract selects exactly that course,
while the code skips empty names, matches nothing, and falls back to
the full course list: the two results differ. -/
theorem course_matcher_counterexample :
    isSubList (lowerChars ([] : Str)) (lowerChars (str "x")) = true ∧
    matchCourses_claim (str "x") emptyNameCurriculum = [⟨[], []⟩] ∧
    find_relevant_courses (str "x") emptyNameCurriculum = [⟨[], []⟩, ⟨str "zzz", []⟩] ∧
    find_relevant_courses (str "x") emptyNameCurriculum ≠
      matchCourses_claim (str "x") emptyNameCurriculum := by
  decide

/-- C4 (amended): for every message and curriculum the matcher
returns exactly the courses whose display name is non-empty and whose
lower-cased name occurs as a substring of the lower-cased message, and
whenever that set is empty it returns the full course list. -/
theorem find_relevant_courses_correct (question : Str) (cd : CurriculumFile) :
    find_relevant_courses question cd = matchCourses_amended question cd ∧
    (matchLoop (lowerChars question) (coursesOf cd) = [] →
      find_relevant_courses question cd = coursesOf cd) := by
  constructor
  · simp only [find_relevant_courses, matchCourses_amended, matchLoop_eq_filter]
  · intro h
    simp [find_relevant_courses, h]

/-- C4 (amended), witness: the reference fallback input `asdf` on the
fixture curriculum. -/
theorem find_relevant_courses_correct_witness :
    find_relevant_courses (str "asdf") fixtureCurriculum =
      matchCourses_amended (str "asdf") fixtureCurriculum ∧
    find_relevant_courses (str "asdf") fixtureCurriculum = coursesOf fixtureCurriculum :=
  ⟨(find_relevant_courses_correct (str "asdf") fixtureCurriculum).1,
   (find_relevant_courses_correct (str "asdf") fixtureCurriculum).2 (by decide)⟩

/-- Title-casing preserves the length of the input. -/
lemma titleAux_length (b : Bool) (s : Str) : (titleAux b s).length = s.length := by
  induction s generalizing b with
  | nil => rfl
  | cons c rest ih => simp [titleAux, ih]

/-- An accepted name is non-empty. -/
lemma validate_name_sound (raw v : Str) (h : validate_name raw = some v) : v ≠ [] := by
  unfold validate_name at h
  split at h
  · rename_i hne
    cases h
    intro hv
    have hlen := titleAux_length false (stripChars raw)
    rw [show titleAux false (stripChars raw) = [] from hv] at hlen
    exact hne (List.eq_nil_of_length_eq_zero hlen.symm)
  · cases h

/-- An accepted email contains an at sign. -/
lemma validate_email_sound (raw v : Str) (h : validate_email raw = some v) :
    isSubList (str "@") v = true := by
  unfold validate_email at h
  split at h
  · rename_i hc; cases h; exact hc.2
  · cases h

/-- An accepted phone number has at least 10 characters. -/
lemma validate_phone_sound (raw v : Str) (h : validate_phone raw = some v) :
    10 ≤ v.length := by
  unfold validate_phone at h
  split at h
  · rename_i hc; cases h; exact hc.2
  · cases h

/-- Whatever the input-scanning loop returns came from a successful
validation. -/
lemma findInput_sound {P : Str → Prop} (validate : Str → Option Str)
    (hv : ∀ raw v, validate raw = some v → P v) :
    ∀ inputs v rest, findInput validate inputs = some (v, rest) → P v := by
  intro inputs
  induction inputs with
  | nil => intro v rest h; simp [findInput] at h
  | cons i tl ih =>
      intro v rest h
      unfold findInput at h
      cases hvi : validate i with
      | some v2 => rw [hvi] at h; cases h; exact hv i v hvi
      | none => rw [hvi] at h; exact ih v rest h

/-- Whatever a field loop returns either was the already-filled value
or came from a successful validation. -/
lemma fieldLoop_sound {P : Str → Prop} (validate : Str → Option Str)
    (hv : ∀ raw v, validate raw = some v → P v)
    (cur : Str) (hcur : cur ≠ [] → P cur) :
    ∀ inputs v rest, fieldLoop validate cur inputs = some (v, rest) → P v := by
  intro inputs v rest h
  unfold fieldLoop at h
  split at h
  · rename_i hne; cases h; exact hcur hne
  · exact findInput_sound validate hv inputs v rest h

/-- The input-scanning loop skips any number of rejected inputs. -/
lemma findInput_skip (validate : Str → Option Str) (hbad : validate [] = none)
    (k : Nat) (good v : Str) (rest : List Str) (hgood : validate good = some v) :
    findInput validate (List.replicate k [] ++ (good :: rest)) = some (v, rest) := by
  induction k with
  | zero => simp [findInput, hgood, List.replicate]
  | succ n ih => simpa [findInput, hbad, List.replicate] using ih

/-- C9: the profile collection routine (i) only returns records whose
name is non-empty, whose email contains an at sign and whose phone has
at least 10 characters (under the reachable-state assumption that a
pre-filled email/phone was itself validated); (ii) never consumes a
prompt input for a field that is already filled (name, email and
phone loops each return the stored value and the untouched stream);
and (iii) has no retry limit: for every number k of rejected attempts
per field the sequential name/email/phone collection still succeeds. -/
theorem collect_user_info_correct :
    (∀ (ud : UserData) (inputs : List Str) (res : UserData × List Str),
      (ud.email ≠ [] → isSubList (str "@") ud.email = true) →
      (ud.phone ≠ [] → 10 ≤ ud.phone.length) →
      collect_user_info ud inputs = some res →
      res.1.name ≠ [] ∧ isSubList (str "@") res.1.email = true ∧
        10 ≤ res.1.phone.length) ∧
    (∀ (ud : UserData) (inputs : List Str), ud.name ≠ [] →
      fieldLoop validate_name ud.name inputs = some (ud.name, inputs)) ∧
    (∀ (ud : UserData) (inputs : List Str), ud.email ≠ [] →
      fieldLoop validate_email ud.email inputs = some (ud.email, inputs)) ∧
    (∀ (ud : UserData) (inputs : List Str), ud.phone ≠ [] →
      fieldLoop validate_phone ud.phone inputs = some (ud.phone, inputs)) ∧
    (∀ k : Nat, collect_user_info initial_user_data
        (List.replicate k [] ++ (str "ada lovelace" ::
          (List.replicate k [] ++ (str "ada@example.com" ::
            (List.replicate k [] ++ [str "0123456789"]))))) =
      some (⟨str "Ada Lovelace", str "ada@example.com", str "0123456789", false⟩, [])) := by
  refine ⟨?_, ?_, ?_, ?_, ?_⟩
  · intro ud inputs res hE hP h
    unfold collect_user_info at h
    cases hn : fieldLoop validate_name ud.name inputs with
    | none => simp [hn] at h
    | some nr =>
        obtain ⟨n, r1⟩ := nr
        simp only [hn] at h
        cases he : fieldLoop validate_email ud.email r1 with
        | none => simp [he] at h
        | some er =>
            obtain ⟨e, r2⟩ := er
            simp only [he] at h
            cases hp : fieldLoop validate_phone ud.phone r2 with
            | none => simp [hp] at h
            | some pr =>
                obtain ⟨p, r3⟩ := pr
                simp only [hp] at h
                cases h
                exact ⟨fieldLoop_sound validate_name validate_name_sound ud.name
                         id inputs n r1 hn,
                       fieldLoop_sound validate_email validate_email_sound ud.email
                         hE r1 e r2 he,
                       fieldLoop_sound validate_phone validate_phone_sound ud.phone
                         hP r2 p r3 hp⟩
  · intro ud inputs h; simp [fieldLoop, h]
  · intro ud inputs h; simp [fieldLoop, h]
  · intro ud inputs h; simp [fieldLoop, h]
  · intro k
    have e1 : fieldLoop validate_name initial_user_data.name
        (List.replicate k [] ++ (str "ada lovelace" ::
          (List.replicate k [] ++ (str "ada@example.com" ::
            (List.replicate k [] ++ [str "0123456789"]))))) =
        some (str "Ada Lovelace",
          List.replicate k [] ++ (str "ada@example.com" ::
            (List.replicate k [] ++ [str "0123456789"]))) :=
      findInput_skip validate_name rfl k _ _ _ (by decide)
    have e2 : fieldLoop validate_email initial_user_data.email
        (List.replicate k [] ++ (str "ada@example.com" ::
          (List.replicate k [] ++ [str "0123456789"]))) =
        some (str "ada@example.com", List.replicate k [] ++ [str "0123456789"]) :=
      findInput_skip validate_email rfl k _ _ _ (by decide)
    have e3 : fieldLoop validate_phone initial_user_data.phone
        (List.replicate k [] ++ (str "0123456789" :: [])) =
        some (str "0123456789", []) :=
      findInput_skip validate_phone rfl k _ _ _ (by decide)
    simp only [collect_user_info, e1, e2, e3]
    rfl

/-- C9 witness: a concrete run with two rejected attempts per field,
whose returned record satisfies all three validity conditions. -/
theorem collect_user_info_correct_witness :
    collect_user_info initial_user_data
        (List.replicate 2 [] ++ (str "ada lovelace" ::
          (List.replicate 2 [] ++ (str "ada@example.com" ::
            (List.replicate 2 [] ++ [str "0123456789"]))))) =
      some (⟨str "Ada Lovelace", str "ada@example.com", str "0123456789", false⟩, []) ∧
    (str "Ada Lovelace" : Str) ≠ [] ∧
    isSubList (str "@") (str "ada@example.com") = true ∧
    10 ≤ (str "0123456789").length :=
  ⟨collect_user_info_correct.2.2.2.2 2,
   collect_user_info_correct.1 initial_user_data _ _ (by decide) (by decide)
     (collect_user_info_correct.2.2.2.2 2)⟩

/-- C10 counterexample: `hi bye` contains the greeting word `hi` as a
substring, yet the endpoint returns the exit response, not the
greeting response, because the exit check runs first. -/
theorem greeting_substring_counterexample :
    (str "hi") ∈ greetings ∧
    isSubList (str "hi") (lowerChars (stripChars (str "hi bye"))) = true ∧
    chat_handler sampleChatOracles initial_user_data (some (str "hi bye")) =
      ⟨200, exitResponse initial_user_data⟩ ∧
    exitResponse initial_user_data ≠ greetingResponse initial_user_data := by
  decide

/-- C10 (amended): for every non-empty message that contains a
greeting word as a raw substring of its lower-cased form and contains
no exit keyword, the endpoint returns the greeting response, and the
result is independent of the downstream oracles (curriculum load,
website fetch), i.e. the domain classifier, matcher and assembler are
never reached — even for in-domain questions such as `which courses do
you offer` (the `hi` inside `which`). -/
theorem greeting_bypass (o o2 : ChatOracles) (ud : UserData) (m : Str)
    (hne : stripChars m ≠ [])
    (hexit : anyKey exit_keywords (lowerChars (stripChars m)) = false)
    (hgr : detect_greeting (stripChars m) = true) :
    chat_handler o ud (some m) = ⟨200, greetingResponse ud⟩ ∧
    chat_handler o ud (some m) = chat_handler o2 ud (some m) := by
  have hall : ∀ oo : ChatOracles, chat_handler oo ud (some m) = ⟨200, greetingResponse ud⟩ := by
    intro oo
    simp [chat_handler, hne, hexit, hgr]
  exact ⟨hall o, (hall o).trans (hall o2).symm⟩

/-- C10 (amended), witness: the in-domain question containing `hi`
inside `which`, under two different oracle assignments. -/
theorem greeting_bypass_witness :
    chat_handler sampleChatOracles initial_user_data
        (some (str "which courses do you offer")) =
      ⟨200, greetingResponse initial_user_data⟩ ∧
    chat_handler sampleChatOracles initial_user_data
        (some (str "which courses do you offer")) =
      chat_handler sampleChatOracles2 initial_user_data
        (some (str "which courses do you offer")) :=
  greeting_bypass sampleChatOracles sampleChatOracles2 initial_user_data _
    (by decide) (by decide) (by decide)

end CrewAI
